import Mathlib

/-!
Verification of the photo-taker app (src/src/index.ts, with the earlier
revision in src/unnamed/part_000) against its natural-language spec.

The embedding models:
  * `Date` as millisecond epoch time plus its ISO rendering (the rendering
    itself is a JS builtin, so it is carried as data);
  * `Buffer` as a list of bytes;
  * JS `Map` objects as functions `String → Option β`;
  * fallible external operations (file writes, camera capture, uploads) by
    passing their outcomes as explicit parameters, with the `try/catch`
    structure of the source translated into the control flow;
  * side effects (file writes, object-store uploads) as an explicit trace.
-/

/-- Model of a JS `Date`: `millis` is `getTime()`, `iso` is `toISOString()`. -/
structure Date where
  millis : Int
  iso : String
deriving DecidableEq, Repr

/-- Model of the SDK `PhotoData`. `requestId` and `mimeType` are optional
because the source guards them with `?? "unknown"` and
`extFromMime(mime: string | undefined)`. -/
structure PhotoData where
  requestId : Option String
  buffer : List Nat
  timestamp : Date
  mimeType : Option String
  size : Nat
deriving DecidableEq, Repr

/-- The `StoredPhoto` interface of index.ts. -/
structure StoredPhoto where
  requestId : Option String
  buffer : List Nat
  timestamp : Date
  userId : String
  mimeType : Option String
  filename : String
  size : Nat
deriving DecidableEq, Repr

/-- `extFromMime` from index.ts. -/
def extFromMime : Option String → String
  | none => ".bin"
  | some mime =>
    if mime = "image/jpeg" ∨ mime = "image/jpg" then ".jpg"
    else if mime = "image/png" then ".png"
    else if mime = "image/webp" then ".webp"
    else if mime = "image/gif" then ".gif"
    else if mime = "image/bmp" then ".bmp"
    else if mime = "image/tiff" then ".tiff"
    else ".bin"

/-- `safeTimestamp` from index.ts: `d.toISOString().replace(/[:]/g, "-")`. -/
def safeTimestamp (d : Date) : String :=
  String.map (fun c => if c = ':' then '-' else c) d.iso

/-- Model of node `path.join` for the two-argument uses in the source. -/
def pathJoin (a b : String) : String := a ++ "/" ++ b

/-- `SNAPSHOTS_DIR = path.join(process.cwd(), "snapshots")`, parametrised by
the working directory. -/
def SNAPSHOTS_DIR (cwd : String) : String := pathJoin cwd "snapshots"

/-- The base filename built in `cachePhoto` and `savePhotoOnly`:
`photo_${ts}_${photo.requestId ?? "unknown"}${ext}`. -/
def mkBaseName (photo : PhotoData) : String :=
  "photo_" ++ safeTimestamp photo.timestamp ++ "_"
    ++ photo.requestId.getD "unknown" ++ extFromMime photo.mimeType

/-- The `cachedPhoto : StoredPhoto` record literal built in `cachePhoto` and
`savePhotoOnly`. -/
def mkStoredPhoto (photo : PhotoData) (userId : String) : StoredPhoto :=
  { requestId := photo.requestId
    buffer := photo.buffer
    timestamp := photo.timestamp
    userId := userId
    mimeType := photo.mimeType
    filename := mkBaseName photo
    size := photo.size }

/-- The argument record of `bucket.upload` in `uploadToFirebase`. -/
structure UploadRequest where
  filePath : String
  destination : String
  contentType : Option String
  metaUserId : String
  metaRequestId : Option String
  metaTimestamp : String
deriving DecidableEq, Repr

/-- `uploadToFirebase` from index.ts: computes the upload request for a
cached photo (the upload itself is external; its success or failure is
caught and does not change state). -/
def uploadToFirebase (cwd : String) (cachedPhoto : StoredPhoto) : UploadRequest :=
  { filePath := pathJoin (SNAPSHOTS_DIR cwd) cachedPhoto.filename
    destination := "sessions/" ++ cachedPhoto.userId ++ "/images/" ++ cachedPhoto.filename
    contentType := cachedPhoto.mimeType
    metaUserId := cachedPhoto.userId
    metaRequestId := cachedPhoto.requestId
    metaTimestamp := cachedPhoto.timestamp.iso }

/-- Model of a JS `Map<string, β>`. -/
def StrMap (β : Type) : Type := String → Option β

def StrMap.get {β : Type} (m : StrMap β) (k : String) : Option β := m k

def StrMap.set {β : Type} (m : StrMap β) (k : String) (v : β) : StrMap β :=
  fun q => if q = k then some v else m q

def StrMap.empty {β : Type} : StrMap β := fun _ => none

/-- The mutable per-user state of `ExampleMentraOSApp` that the claims
concern. -/
structure AppState where
  photos : StrMap (List StoredPhoto)
  latestPhotoTimestamp : StrMap Int
  isStreamingPhotos : StrMap Bool
  nextPhotoTime : StrMap Int

/-- The state at construction: all maps empty (`new Map()`). -/
def initState : AppState :=
  { photos := StrMap.empty
    latestPhotoTimestamp := StrMap.empty
    isStreamingPhotos := StrMap.empty
    nextPhotoTime := StrMap.empty }

/-- Observable side effects of the caching operations. -/
inductive Effect where
  | fileWrite (path : String) (bytes : List Nat) (ok : Bool)
  | upload (req : UploadRequest) (ok : Bool)
deriving DecidableEq, Repr

/-- The in-memory list-update step shared by `cachePhoto` and
`savePhotoOnly` in index.ts (lines 242-248 / 285-289): fetch the user's
list (or `[]`), unshift the new record, truncate to 50, store the list and
the latest timestamp. -/
def cacheListStep (cachedPhoto : StoredPhoto) (userId : String) (st : AppState) : AppState :=
  let list := (st.photos.get userId).getD []
  let list := cachedPhoto :: list
  let list := if list.length > 50 then list.take 50 else list
  { st with
    photos := st.photos.set userId list
    latestPhotoTimestamp := st.latestPhotoTimestamp.set userId cachedPhoto.timestamp.millis }

/-- The same list-update step as it appears in the earlier revision
src/unnamed/part_000 (lines 184-190). -/
def cacheListStep_v0 (cachedPhoto : StoredPhoto) (userId : String) (st : AppState) : AppState :=
  let list := (st.photos.get userId).getD []
  let list := cachedPhoto :: list
  let list := if list.length > 50 then list.take 50 else list
  { st with
    photos := st.photos.set userId list
    latestPhotoTimestamp := st.latestPhotoTimestamp.set userId cachedPhoto.timestamp.millis }

/-- `savePhotoOnly` from index.ts. `writeOk` is the outcome of
`fs.writeFile`; on failure the function returns early (`return; // Don't
cache if file save failed`). `uploadOk` is the outcome of the firebase
upload, which is caught inside `uploadToFirebase`. -/
def savePhotoOnly (cwd : String) (photo : PhotoData) (userId : String)
    (writeOk uploadOk : Bool) (st : AppState) : AppState × List Effect :=
  let baseName := mkBaseName photo
  let fullPath := pathJoin (SNAPSHOTS_DIR cwd) baseName
  if writeOk then
    let cachedPhoto := mkStoredPhoto photo userId
    (cacheListStep cachedPhoto userId st,
      [Effect.fileWrite fullPath photo.buffer true,
       Effect.upload (uploadToFirebase cwd cachedPhoto) uploadOk])
  else
    (st, [Effect.fileWrite fullPath photo.buffer false])

/-- `cachePhoto` from index.ts. `session` is whether the optional session
argument was passed; `writeOk` is the outcome of the main `fs.writeFile`;
`followPhoto` is the result of the follow-up `requestPhoto` (`none` when
the camera throws, which is caught); `followWriteOk`/`followUploadOk` are
the outcomes inside the follow-up `savePhotoOnly`; `uploadOk` is the
outcome of the main photo's upload. On a failed main write the catch block
logs and continues, so the main photo is still cached in memory and still
uploaded. -/
def cachePhoto (cwd : String) (photo : PhotoData) (userId : String)
    (session : Bool) (writeOk : Bool) (followPhoto : Option PhotoData)
    (followWriteOk followUploadOk : Bool) (uploadOk : Bool)
    (st : AppState) : AppState × List Effect :=
  let baseName := mkBaseName photo
  let fullPath := pathJoin (SNAPSHOTS_DIR cwd) baseName
  let followRun : AppState × List Effect :=
    if writeOk then
      if session then
        match followPhoto with
        | some nextPhoto => savePhotoOnly cwd nextPhoto userId followWriteOk followUploadOk st
        | none => (st, [])
      else (st, [])
    else (st, [])
  let cachedPhoto := mkStoredPhoto photo userId
  let st2 := cacheListStep cachedPhoto userId followRun.1
  (st2,
    Effect.fileWrite fullPath photo.buffer writeOk
      :: followRun.2 ++ [Effect.upload (uploadToFirebase cwd cachedPhoto) uploadOk])

/-- `cachePhoto` as it appears in the earlier revision src/unnamed/part_000:
no follow-up photo and no firebase upload. -/
def cachePhoto_v0 (cwd : String) (photo : PhotoData) (userId : String)
    (writeOk : Bool) (st : AppState) : AppState × List Effect :=
  let baseName := mkBaseName photo
  let fullPath := pathJoin (SNAPSHOTS_DIR cwd) baseName
  let cachedPhoto := mkStoredPhoto photo userId
  (cacheListStep_v0 cachedPhoto userId st,
    [Effect.fileWrite fullPath photo.buffer writeOk])

/-- One call to `cachePhoto` or `savePhotoOnly`, with all external outcomes. -/
inductive Op where
  | cache (photo : PhotoData) (userId : String) (session : Bool) (writeOk : Bool)
      (followPhoto : Option PhotoData) (followWriteOk followUploadOk uploadOk : Bool)
  | saveOnly (photo : PhotoData) (userId : String) (writeOk uploadOk : Bool)

def runOp (cwd : String) (st : AppState) : Op → AppState
  | .cache photo userId session writeOk fp fw fu up =>
      (cachePhoto cwd photo userId session writeOk fp fw fu up st).1
  | .saveOnly photo userId w u => (savePhotoOnly cwd photo userId w u st).1

def runOps (cwd : String) (st : AppState) (ops : List Op) : AppState :=
  ops.foldl (runOp cwd) st

/-- JSON metadata returned per photo by `/api/photos`. -/
structure PhotoMeta where
  requestId : Option String
  timestamp : Int
  filename : String
  size : Nat
  mimeType : Option String
deriving DecidableEq, Repr

def photoMeta (p : StoredPhoto) : PhotoMeta :=
  { requestId := p.requestId
    timestamp := p.timestamp.millis
    filename := p.filename
    size := p.size
    mimeType := p.mimeType }

/-- The bodies the route handlers can send. -/
inductive ResponseBody where
  | jsonError (msg : String)
  | latestMeta (requestId : Option String) (timestamp : Int) (hasPhoto : Bool)
  | photoList (items : List PhotoMeta)
  | binary (buffer : List Nat) (contentType : Option String)
  | notAuthPage (html : String)
  | viewerPage
  | redirect (location : String)
deriving DecidableEq, Repr

structure Response where
  status : Nat
  body : ResponseBody
deriving DecidableEq, Repr

/-- JS falsiness of `authUserId : string | undefined`: `!userId` is true for
`undefined` and for the empty string. -/
def strFalsy : Option String → Bool
  | none => true
  | some s => s == ""

/-- The `/api/latest-photo` handler. -/
def apiLatestPhoto (st : AppState) (authUserId : Option String) : Response :=
  if strFalsy authUserId then ⟨401, .jsonError "Not authenticated"⟩
  else
    let userId := authUserId.getD ""
    let list := (st.photos.get userId).getD []
    match list with
    | [] => ⟨404, .jsonError "No photo available"⟩
    | photo :: _ => ⟨200, .latestMeta photo.requestId photo.timestamp.millis true⟩

/-- The `/api/photos` handler. -/
def apiPhotos (st : AppState) (authUserId : Option String) : Response :=
  if strFalsy authUserId then ⟨401, .jsonError "Not authenticated"⟩
  else
    let userId := authUserId.getD ""
    let list := (st.photos.get userId).getD []
    ⟨200, .photoList (list.map photoMeta)⟩

/-- The `/api/photo/:requestId` handler. -/
def apiPhoto (st : AppState) (authUserId : Option String) (requestId : String) : Response :=
  if strFalsy authUserId then ⟨401, .jsonError "Not authenticated"⟩
  else
    let userId := authUserId.getD ""
    let list := (st.photos.get userId).getD []
    match list.find? (fun p => p.requestId == some requestId) with
    | none => ⟨404, .jsonError "Photo not found"⟩
    | some photo => ⟨200, .binary photo.buffer photo.mimeType⟩

def notAuthenticatedHtml : String :=
  "<html><head><title>Not Authenticated</title></head><body><h1>Please open from MentraOS app</h1></body></html>"

/-- The `/webview` handler; the rendered EJS template is kept abstract
(`viewerPage`). -/
def webviewRoute (_st : AppState) (authUserId : Option String) : Response :=
  if strFalsy authUserId then ⟨401, .notAuthPage notAuthenticatedHtml⟩
  else ⟨200, .viewerPage⟩

/-- The `/` handler: `res.redirect("/webview")`, an unconditional 302. -/
def rootRoute (_st : AppState) (_authUserId : Option String) : Response :=
  ⟨302, .redirect "/webview"⟩

/-- The interval of the auto-stream `setInterval` in `onSession`. -/
def autoStreamIntervalMs : Nat := 1000

/-- All external outcomes of one `cachePhoto` call (for use inside the
auto-stream tick, where the session is always passed). -/
structure CacheOutcome where
  writeOk : Bool
  followPhoto : Option PhotoData
  followWriteOk : Bool
  followUploadOk : Bool
  uploadOk : Bool

/-- One firing of the auto-stream `setInterval` callback for `userId`.
`now` is `Date.now()` at entry; `cameraResult` is `none` when
`requestPhoto` throws (caught by the handler), otherwise the photo together
with `Date.now()` after capture. The returned Bool records whether a photo
was requested on this tick. -/
def autoStreamTick (cwd : String) (userId : String) (now : Int)
    (cameraResult : Option (PhotoData × Int)) (co : CacheOutcome)
    (st : AppState) : AppState × Bool :=
  if (st.isStreamingPhotos.get userId).getD false = true
      ∧ now > (st.nextPhotoTime.get userId).getD 0 then
    let st1 := { st with nextPhotoTime := st.nextPhotoTime.set userId (now + 30000) }
    match cameraResult with
    | none => (st1, true)
    | some (photo, now2) =>
      let st2 := { st1 with nextPhotoTime := st1.nextPhotoTime.set userId now2 }
      ((cachePhoto cwd photo userId true co.writeOk co.followPhoto
          co.followWriteOk co.followUploadOk co.uploadOk st2).1, true)
  else (st, false)

/-- Per-user lists never exceed 50 entries. -/
def photosBounded (st : AppState) : Prop :=
  ∀ u, ((st.photos.get u).getD []).length ≤ 50

/-- Sample inputs used to instantiate the theorems below. -/
def sampleDate : Date := { millis := 1700000000000, iso := "2023-11-14T22:13:20.000Z" }

def samplePhoto : PhotoData :=
  { requestId := some "req-1"
    buffer := [1, 2, 3]
    timestamp := sampleDate
    mimeType := some "image/jpeg"
    size := 3 }

def sampleStored : StoredPhoto := mkStoredPhoto samplePhoto "user1"

def sampleState : AppState :=
  { initState with photos := StrMap.set StrMap.empty "user1" [sampleStored] }

theorem StrMap.get_set_self {β : Type} (m : StrMap β) (k : String) (v : β) :
    (m.set k v).get k = some v := by
  simp [StrMap.get, StrMap.set]

theorem StrMap.get_set_ne {β : Type} (m : StrMap β) (k q : String) (v : β) (h : q ≠ k) :
    (m.set k v).get q = m.get q := by
  simp [StrMap.get, StrMap.set, h]

/-- The truncation step `if (list.length > 50) list.length = 50` applied
after an unshift is the same as taking the first 50 elements. -/
theorem trunc_eq_take (x : StoredPhoto) (l : List StoredPhoto) :
    (if (x :: l).length > 50 then (x :: l).take 50 else x :: l) = (x :: l).take 50 := by
  by_cases h : (x :: l).length > 50
  · rw [if_pos h]
  · rw [if_neg h, List.take_of_length_le (by omega)]

theorem cacheListStep_photos_self (c : StoredPhoto) (uid : String) (st : AppState) :
    (cacheListStep c uid st).photos.get uid
      = some ((c :: (st.photos.get uid).getD []).take 50) := by
  simp [cacheListStep, StrMap.get, StrMap.set, trunc_eq_take]

theorem cacheListStep_photos_other (c : StoredPhoto) (uid u : String) (st : AppState)
    (h : u ≠ uid) :
    (cacheListStep c uid st).photos.get u = st.photos.get u := by
  simp [cacheListStep, StrMap.get, StrMap.set, h]

theorem cacheListStep_latest_self (c : StoredPhoto) (uid : String) (st : AppState) :
    (cacheListStep c uid st).latestPhotoTimestamp.get uid = some c.timestamp.millis := by
  simp [cacheListStep, StrMap.get, StrMap.set]

/-- State component of `savePhotoOnly`: the list step on success, the
unchanged state on a failed write. -/
theorem savePhotoOnly_state (cwd : String) (photo : PhotoData) (userId : String)
    (writeOk uploadOk : Bool) (st : AppState) :
    (savePhotoOnly cwd photo userId writeOk uploadOk st).1
      = if writeOk then cacheListStep (mkStoredPhoto photo userId) userId st else st := by
  cases writeOk <;> simp [savePhotoOnly]

/-- State component of `cachePhoto`: the follow-up save happens first (only
after a successful main write with a session and a successful follow-up
capture), then the main photo is cached unconditionally. -/
theorem cachePhoto_state (cwd : String) (photo : PhotoData) (userId : String)
    (session writeOk : Bool) (fp : Option PhotoData) (fw fu up : Bool) (st : AppState) :
    (cachePhoto cwd photo userId session writeOk fp fw fu up st).1
      = cacheListStep (mkStoredPhoto photo userId) userId
          (if writeOk = true ∧ session = true then
            (match fp with
             | some np => (savePhotoOnly cwd np userId fw fu st).1
             | none => st)
           else st) := by
  cases writeOk <;> cases session <;> cases fp <;> simp [cachePhoto]

theorem cacheListStep_bounded (c : StoredPhoto) (uid : String) (st : AppState)
    (h : photosBounded st) : photosBounded (cacheListStep c uid st) := by
  intro u
  by_cases hu : u = uid
  · subst hu
    rw [cacheListStep_photos_self]
    simp [List.length_take]
  · rw [cacheListStep_photos_other c uid u st hu]
    exact h u

theorem savePhotoOnly_bounded (cwd : String) (photo : PhotoData) (userId : String)
    (writeOk uploadOk : Bool) (st : AppState) (h : photosBounded st) :
    photosBounded (savePhotoOnly cwd photo userId writeOk uploadOk st).1 := by
  rw [savePhotoOnly_state]
  split
  · exact cacheListStep_bounded _ _ _ h
  · exact h

theorem runOp_bounded (cwd : String) (st : AppState) (op : Op)
    (h : photosBounded st) : photosBounded (runOp cwd st op) := by
  cases op with
  | cache photo userId session writeOk fp fw fu up =>
    simp only [runOp, cachePhoto_state]
    apply cacheListStep_bounded
    by_cases hc : writeOk = true ∧ session = true
    · rw [if_pos hc]
      cases fp with
      | none => exact h
      | some np => exact savePhotoOnly_bounded cwd np userId fw fu st h
    · rw [if_neg hc]; exact h
  | saveOnly photo userId w u =>
    simp only [runOp]
    exact savePhotoOnly_bounded cwd photo userId w u st h

theorem runOps_bounded (cwd : String) (ops : List Op) (st : AppState)
    (h : photosBounded st) : photosBounded (runOps cwd st ops) := by
  induction ops generalizing st with
  | nil => exact h
  | cons op rest ih => exact ih (runOp cwd st op) (runOp_bounded cwd st op h)

theorem initState_bounded : photosBounded initState := by
  intro u
  simp [initState, StrMap.empty, StrMap.get]

/-- C1: for every user id, after any sequence of `cachePhoto` and
`savePhotoOnly` calls (with arbitrary outcomes of the external file writes,
follow-up captures and uploads), the in-memory photo list stored for that
user has length at most 50 entries. -/
theorem cache_list_bounded (cwd : String) (ops : List Op) (u : String) :
    (((runOps cwd initState ops).photos.get u).getD []).length ≤ 50 :=
  runOps_bounded cwd ops initState initState_bounded u

/-- C10: the in-memory list-update step of `cachePhoto` is the same function
in both versions of the source: given the same prior state and the same
cached record it produces the same resulting list and the same latest-photo
timestamp, and (with no session passed, the only mode the old version has)
the whole state update of the new `cachePhoto` coincides with the old one. -/
theorem cache_step_versions_agree :
    (∀ (cachedPhoto : StoredPhoto) (userId : String) (st : AppState),
        cacheListStep cachedPhoto userId st = cacheListStep_v0 cachedPhoto userId st)
    ∧ (∀ (cwd : String) (photo : PhotoData) (userId : String) (writeOk : Bool)
          (fp : Option PhotoData) (fw fu up : Bool) (st : AppState),
        (cachePhoto cwd photo userId false writeOk fp fw fu up st).1
          = (cachePhoto_v0 cwd photo userId writeOk st).1) := by
  constructor
  · intro c uid st
    rfl
  · intro cwd photo uid w fp fw fu up st
    cases w <;> rfl

/-- C3 counterexample: the `/` route is not gated by `authUserId`; with no
authenticated user it responds with a 302 redirect, not a 401. -/
theorem root_route_not_gated_cex :
    (rootRoute initState none).status = 302
      ∧ ¬ (rootRoute initState none).status = 401 := by
  constructor <;> decide

/-- C3 (amended): the four routes `/api/latest-photo`, `/api/photos`,
`/api/photo/:requestId` and `/webview` respond 401 with an error body
carrying no photo data whenever `authUserId` is absent; the `/` route is
not itself gated: it always responds with a 302 redirect to the gated
`/webview` and carries no photo data either. -/
theorem routes_auth_gating (st : AppState) (requestId : String) :
    apiLatestPhoto st none = ⟨401, .jsonError "Not authenticated"⟩
    ∧ apiPhotos st none = ⟨401, .jsonError "Not authenticated"⟩
    ∧ apiPhoto st none requestId = ⟨401, .jsonError "Not authenticated"⟩
    ∧ webviewRoute st none = ⟨401, .notAuthPage notAuthenticatedHtml⟩
    ∧ rootRoute st none = ⟨302, .redirect "/webview"⟩ :=
  ⟨rfl, rfl, rfl, rfl, rfl⟩

theorem runOps_append_one (cwd : String) (st : AppState) (ops : List Op) (op : Op) :
    runOps cwd st (ops ++ [op]) = runOp cwd (runOps cwd st ops) op := by
  simp [runOps, List.foldl_append]

theorem head_take50 (c : StoredPhoto) (l : List StoredPhoto) :
    ((c :: l).take 50).head? = some c := by
  rw [show (50 : Nat) = 49 + 1 from rfl, List.take_succ_cons]
  rfl

theorem cacheListStep_head (c : StoredPhoto) (uid : String) (st : AppState) :
    (((cacheListStep c uid st).photos.get uid).getD []).head? = some c := by
  rw [cacheListStep_photos_self, Option.getD_some]
  exact head_take50 c _

theorem strFalsy_some_ne (u : String) (h : u ≠ "") : strFalsy (some u) = false := by
  simp [strFalsy, h]

theorem apiPhotos_auth (st : AppState) (userId : String) (h : userId ≠ "") :
    apiPhotos st (some userId)
      = ⟨200, .photoList (((st.photos.get userId).getD []).map photoMeta)⟩ := by
  simp [apiPhotos, strFalsy_some_ne userId h]

/-- C2: the in-memory list is kept most-recent-first: after any sequence of
operations followed by a `cachePhoto` (with any outcomes), the record at
index 0 of the user's list is the record of the photo just cached; the same
holds for a `savePhotoOnly` whose file write succeeded; and `/api/photos`
returns exactly the stored list, in its order, mapped to metadata. -/
theorem cache_newest_first (cwd : String) (ops : List Op)
    (photo : PhotoData) (userId : String) (session writeOk : Bool)
    (fp : Option PhotoData) (fw fu up uo : Bool)
    (h : userId ≠ "") :
    (((runOps cwd initState
          (ops ++ [Op.cache photo userId session writeOk fp fw fu up])).photos.get
            userId).getD []).head? = some (mkStoredPhoto photo userId)
    ∧ (((runOps cwd initState
          (ops ++ [Op.saveOnly photo userId true uo])).photos.get
            userId).getD []).head? = some (mkStoredPhoto photo userId)
    ∧ apiPhotos (runOps cwd initState
          (ops ++ [Op.cache photo userId session writeOk fp fw fu up])) (some userId)
        = ⟨200, .photoList ((((runOps cwd initState
              (ops ++ [Op.cache photo userId session writeOk fp fw fu up])).photos.get
                userId).getD []).map photoMeta)⟩ := by
  refine ⟨?_, ?_, ?_⟩
  · rw [runOps_append_one]
    simp only [runOp, cachePhoto_state]
    exact cacheListStep_head _ _ _
  · rw [runOps_append_one]
    simp only [runOp]
    rw [savePhotoOnly_state, if_pos rfl]
    exact cacheListStep_head _ _ _
  · exact apiPhotos_auth _ userId h

/-- Witness for C2 at concrete inputs. -/
theorem cache_newest_first_witness :
    (((runOps "app" initState
          ([] ++ [Op.cache samplePhoto "user1" false true none false false true])).photos.get
            "user1").getD []).head? = some (mkStoredPhoto samplePhoto "user1")
    ∧ (((runOps "app" initState
          ([] ++ [Op.saveOnly samplePhoto "user1" true true])).photos.get
            "user1").getD []).head? = some (mkStoredPhoto samplePhoto "user1")
    ∧ apiPhotos (runOps "app" initState
          ([] ++ [Op.cache samplePhoto "user1" false true none false false true])) (some "user1")
        = ⟨200, .photoList ((((runOps "app" initState
              ([] ++ [Op.cache samplePhoto "user1" false true none false false true])).photos.get
                "user1").getD []).map photoMeta)⟩ :=
  cache_newest_first "app" [] samplePhoto "user1" false true none false false true true
    (by decide)

/-- Effect trace of `savePhotoOnly`: an attempted write, and an upload only
when the write succeeded. -/
theorem savePhotoOnly_effects (cwd : String) (photo : PhotoData) (userId : String)
    (writeOk uploadOk : Bool) (st : AppState) :
    (savePhotoOnly cwd photo userId writeOk uploadOk st).2
      = if writeOk then
          [Effect.fileWrite (pathJoin (SNAPSHOTS_DIR cwd) (mkBaseName photo)) photo.buffer true,
           Effect.upload (uploadToFirebase cwd (mkStoredPhoto photo userId)) uploadOk]
        else
          [Effect.fileWrite (pathJoin (SNAPSHOTS_DIR cwd) (mkBaseName photo))
            photo.buffer false] := by
  cases writeOk <;> simp [savePhotoOnly]

/-- Effect trace of `cachePhoto`: the main write attempt, then the follow-up
save's effects (only after a successful write with a session and a
successful follow-up capture), then the main photo's upload. -/
theorem cachePhoto_effects (cwd : String) (photo : PhotoData) (userId : String)
    (session writeOk : Bool) (fp : Option PhotoData) (fw fu up : Bool) (st : AppState) :
    (cachePhoto cwd photo userId session writeOk fp fw fu up st).2
      = Effect.fileWrite (pathJoin (SNAPSHOTS_DIR cwd) (mkBaseName photo)) photo.buffer writeOk
          :: (if writeOk = true ∧ session = true then
                (match fp with
                 | some np => (savePhotoOnly cwd np userId fw fu st).2
                 | none => [])
              else [])
          ++ [Effect.upload (uploadToFirebase cwd (mkStoredPhoto photo userId)) up] := by
  cases writeOk <;> cases session <;> cases fp <;> simp [cachePhoto]

/-- C8: on a failed disk write the two save paths disagree: `cachePhoto`
still inserts the photo into the in-memory list, still updates the
latest-photo timestamp and still attempts the upload, while `savePhotoOnly`
returns early with the state unchanged and no upload in its trace. -/
theorem write_failure_divergence (cwd : String) (photo : PhotoData) (userId : String)
    (session : Bool) (fp : Option PhotoData) (fw fu up uo : Bool) (st : AppState) :
    ((cachePhoto cwd photo userId session false fp fw fu up st).1.photos.get userId
        = some ((mkStoredPhoto photo userId :: (st.photos.get userId).getD []).take 50))
    ∧ ((cachePhoto cwd photo userId session false fp fw fu up st).1.latestPhotoTimestamp.get
          userId = some photo.timestamp.millis)
    ∧ (Effect.upload (uploadToFirebase cwd (mkStoredPhoto photo userId)) up
        ∈ (cachePhoto cwd photo userId session false fp fw fu up st).2)
    ∧ savePhotoOnly cwd photo userId false uo st
        = (st, [Effect.fileWrite (pathJoin (SNAPSHOTS_DIR cwd) (mkBaseName photo))
                  photo.buffer false]) := by
  refine ⟨?_, ?_, ?_, ?_⟩
  · rw [cachePhoto_state, if_neg (by simp)]
    exact cacheListStep_photos_self _ _ _
  · rw [cachePhoto_state, if_neg (by simp)]
    exact cacheListStep_latest_self _ _ _
  · rw [cachePhoto_effects]
    simp
  · simp [savePhotoOnly]

/-- C6: camera, file-write and upload failures are all caught and swallowed:
a failed write in `savePhotoOnly` leaves the state unchanged (a missing
photo); a failed main write in `cachePhoto` still caches the photo in
memory (the catch block continues); a failed follow-up capture leaves only
the main photo cached; the state after either operation is independent of
the upload outcome; and a failed capture in the auto-stream tick leaves the
photo lists untouched — in every case the operation returns a state rather
than propagating the error. -/
theorem failures_swallowed (cwd : String) :
    (∀ (photo : PhotoData) (userId : String) (uploadOk : Bool) (st : AppState),
        savePhotoOnly cwd photo userId false uploadOk st
          = (st, [Effect.fileWrite (pathJoin (SNAPSHOTS_DIR cwd) (mkBaseName photo))
                    photo.buffer false]))
    ∧ (∀ (photo : PhotoData) (userId : String) (session : Bool) (fp : Option PhotoData)
          (fw fu up : Bool) (st : AppState),
        (cachePhoto cwd photo userId session false fp fw fu up st).1
          = cacheListStep (mkStoredPhoto photo userId) userId st)
    ∧ (∀ (photo : PhotoData) (userId : String) (writeOk fw fu up : Bool) (st : AppState),
        (cachePhoto cwd photo userId true writeOk none fw fu up st).1
          = cacheListStep (mkStoredPhoto photo userId) userId st)
    ∧ (∀ (photo : PhotoData) (userId : String) (session writeOk : Bool)
          (fp : Option PhotoData) (fw fu : Bool) (st : AppState),
        (cachePhoto cwd photo userId session writeOk fp fw fu true st).1
          = (cachePhoto cwd photo userId session writeOk fp fw fu false st).1)
    ∧ (∀ (photo : PhotoData) (userId : String) (writeOk : Bool) (st : AppState),
        (savePhotoOnly cwd photo userId writeOk true st).1
          = (savePhotoOnly cwd photo userId writeOk false st).1)
    ∧ (∀ (userId : String) (now : Int) (co : CacheOutcome) (st : AppState),
        (autoStreamTick cwd userId now none co st).1.photos = st.photos) := by
  refine ⟨?_, ?_, ?_, ?_, ?_, ?_⟩
  · intro photo userId uploadOk st
    simp [savePhotoOnly]
  · intro photo userId session fp fw fu up st
    rw [cachePhoto_state]
    simp
  · intro photo userId writeOk fw fu up st
    rw [cachePhoto_state]
    cases writeOk <;> simp
  · intro photo userId session writeOk fp fw fu st
    rfl
  · intro photo userId writeOk st
    cases writeOk <;> rfl
  · intro userId now co st
    unfold autoStreamTick
    by_cases hcond : (st.isStreamingPhotos.get userId).getD false = true
        ∧ now > (st.nextPhotoTime.get userId).getD 0
    · rw [if_pos hcond]
    · rw [if_neg hcond]

/-- C7: the auto-capture loop is a 1000 ms fixed-interval timer polling the
per-user streaming flag: a tick requests a photo exactly when
`isStreamingPhotos` for the user is true and the current time exceeds the
user's `nextPhotoTime`; while the flag is false a tick does nothing. -/
theorem auto_stream_polls_flag (cwd userId : String) (now : Int)
    (cameraResult : Option (PhotoData × Int)) (co : CacheOutcome) (st : AppState) :
    autoStreamIntervalMs = 1000
    ∧ ((autoStreamTick cwd userId now cameraResult co st).2 = true
        ↔ ((st.isStreamingPhotos.get userId).getD false = true
            ∧ now > (st.nextPhotoTime.get userId).getD 0))
    ∧ ((st.isStreamingPhotos.get userId).getD false = false
        → autoStreamTick cwd userId now cameraResult co st = (st, false)) := by
  refine ⟨rfl, ?_, ?_⟩
  · by_cases hcond : (st.isStreamingPhotos.get userId).getD false = true
        ∧ now > (st.nextPhotoTime.get userId).getD 0
    · rcases cameraResult with _ | ⟨p, n2⟩ <;> simp [autoStreamTick, hcond]
    · rcases cameraResult with _ | ⟨p, n2⟩ <;> simp [autoStreamTick, hcond]
  · intro hflag
    have hcond : ¬ ((st.isStreamingPhotos.get userId).getD false = true
        ∧ now > (st.nextPhotoTime.get userId).getD 0) := by
      rintro ⟨h1, _⟩
      rw [hflag] at h1
      exact Bool.false_ne_true h1
    unfold autoStreamTick
    rw [if_neg hcond]

/-- Witness for C7: on the initial state (streaming flag unset, hence
falsy) a tick leaves the state unchanged and requests nothing. -/
theorem auto_stream_polls_flag_witness :
    autoStreamTick "app" "user1" 5 none ⟨true, none, true, true, true⟩ initState
      = (initState, false) :=
  (auto_stream_polls_flag "app" "user1" 5 none ⟨true, none, true, true, true⟩ initState).2.2
    rfl

/-- C4: every file written by `cachePhoto` or `savePhotoOnly` goes directly
under the snapshots directory, and its basename is exactly
`photo_<iso-timestamp>_<requestId><ext>`: the ISO rendering of the photo's
timestamp with every colon replaced by a hyphen, the photo's request id (or
"unknown" when absent), and the extension derived from its MIME type. -/
theorem photo_file_naming (cwd : String) (photo : PhotoData) (userId : String)
    (session writeOk : Bool) (fp : Option PhotoData) (fw fu up : Bool)
    (writeOk2 uploadOk2 : Bool) (st : AppState) :
    (∀ p b ok,
        Effect.fileWrite p b ok ∈ (cachePhoto cwd photo userId session writeOk fp fw fu up st).2
        → p = pathJoin (SNAPSHOTS_DIR cwd) (mkBaseName photo)
          ∨ ∃ np, fp = some np ∧ p = pathJoin (SNAPSHOTS_DIR cwd) (mkBaseName np))
    ∧ (∀ p b ok,
        Effect.fileWrite p b ok ∈ (savePhotoOnly cwd photo userId writeOk2 uploadOk2 st).2
        → p = pathJoin (SNAPSHOTS_DIR cwd) (mkBaseName photo))
    ∧ (∀ ph : PhotoData, mkBaseName ph
        = "photo_" ++ safeTimestamp ph.timestamp ++ "_"
            ++ ph.requestId.getD "unknown" ++ extFromMime ph.mimeType)
    ∧ (∀ d : Date, safeTimestamp d
        = String.map (fun c => if c = ':' then '-' else c) d.iso) := by
  refine ⟨?_, ?_, fun ph => rfl, fun d => rfl⟩
  · intro p b ok hmem
    cases writeOk <;> cases session <;> rcases fp with _ | np <;> cases fw <;>
      simp [cachePhoto_effects, savePhotoOnly_effects] at hmem
    all_goals
      first
        | exact Or.inl hmem.1
        | exact hmem.elim (fun hm => Or.inl hm.1)
            (fun hm => Or.inr ⟨np, rfl, hm.1⟩)
  · intro p b ok hmem
    cases writeOk2 <;> simp [savePhotoOnly_effects] at hmem <;> exact hmem.1

/-- Witness for C4: the main write of a concrete `cachePhoto` call targets
the snapshots path built from the photo's fields. -/
theorem photo_file_naming_witness :
    pathJoin (SNAPSHOTS_DIR "app") (mkBaseName samplePhoto)
        = pathJoin (SNAPSHOTS_DIR "app") (mkBaseName samplePhoto)
      ∨ ∃ np, (none : Option PhotoData) = some np
          ∧ pathJoin (SNAPSHOTS_DIR "app") (mkBaseName samplePhoto)
              = pathJoin (SNAPSHOTS_DIR "app") (mkBaseName np) :=
  (photo_file_naming "app" samplePhoto "user1" false true none false false true true true
      initState).1
    (pathJoin (SNAPSHOTS_DIR "app") (mkBaseName samplePhoto)) samplePhoto.buffer true
    (by rw [cachePhoto_effects]; exact List.mem_cons_self _ _)

/-- C5: every upload emitted by `cachePhoto` or `savePhotoOnly` is the
upload of some cached record, and its destination key is exactly
`sessions/<userId>/images/<filename>` built from that record's `userId` and
`filename` fields. -/
theorem upload_destination_key (cwd : String) (photo : PhotoData) (userId : String)
    (session writeOk : Bool) (fp : Option PhotoData) (fw fu up : Bool)
    (writeOk2 uploadOk2 : Bool) (st : AppState) :
    (∀ cp : StoredPhoto, (uploadToFirebase cwd cp).destination
        = "sessions/" ++ cp.userId ++ "/images/" ++ cp.filename)
    ∧ (∀ r ok,
        Effect.upload r ok ∈ (cachePhoto cwd photo userId session writeOk fp fw fu up st).2
        → ∃ cp : StoredPhoto, r = uploadToFirebase cwd cp
            ∧ r.destination = "sessions/" ++ cp.userId ++ "/images/" ++ cp.filename)
    ∧ (∀ r ok,
        Effect.upload r ok ∈ (savePhotoOnly cwd photo userId writeOk2 uploadOk2 st).2
        → ∃ cp : StoredPhoto, r = uploadToFirebase cwd cp
            ∧ r.destination = "sessions/" ++ cp.userId ++ "/images/" ++ cp.filename) := by
  refine ⟨fun cp => rfl, ?_, ?_⟩
  · intro r ok hmem
    cases writeOk <;> cases session <;> rcases fp with _ | np <;> cases fw <;>
      simp [cachePhoto_effects, savePhotoOnly_effects] at hmem
    all_goals
      first
        | exact ⟨mkStoredPhoto photo userId, hmem.1, by rw [hmem.1]; rfl⟩
        | exact hmem.elim
            (fun hm => ⟨mkStoredPhoto np userId, hm.1, by rw [hm.1]; rfl⟩)
            (fun hm => ⟨mkStoredPhoto photo userId, hm.1, by rw [hm.1]; rfl⟩)
  · intro r ok hmem
    cases writeOk2 <;> simp [savePhotoOnly_effects] at hmem
    exact ⟨mkStoredPhoto photo userId, hmem.1, by rw [hmem.1]; rfl⟩

/-- Witness for C5: the upload of a concrete `savePhotoOnly` call carries
the `sessions/<userId>/images/<filename>` destination. -/
theorem upload_destination_key_witness :
    ∃ cp : StoredPhoto,
      uploadToFirebase "app" (mkStoredPhoto samplePhoto "user1") = uploadToFirebase "app" cp
      ∧ (uploadToFirebase "app" (mkStoredPhoto samplePhoto "user1")).destination
          = "sessions/" ++ cp.userId ++ "/images/" ++ cp.filename :=
  (upload_destination_key "app" samplePhoto "user1" false true none false false true true true
      initState).2.2
    (uploadToFirebase "app" (mkStoredPhoto samplePhoto "user1")) true
    (by rw [savePhotoOnly_effects, if_pos rfl]
        exact List.mem_cons_of_mem _ (List.mem_cons_self _ _))

theorem apiPhoto_auth (st : AppState) (userId requestId : String) (h : userId ≠ "") :
    apiPhoto st (some userId) requestId
      = match ((st.photos.get userId).getD []).find?
            (fun p => p.requestId == some requestId) with
        | none => ⟨404, .jsonError "Photo not found"⟩
        | some photo => ⟨200, .binary photo.buffer photo.mimeType⟩ := by
  simp [apiPhoto, strFalsy_some_ne userId h]

/-- C9: an authenticated `/api/photo/:requestId` request is answered only
from the list stored under the requester's `authUserId`: a 200 response
serves the buffer and MIME type of a photo in that user's list whose
`requestId` matches, and when no photo of that user matches the response is
404 — a photo cached for a different user is never returned. -/
theorem api_photo_per_user (st : AppState) (userId requestId : String) (h : userId ≠ "") :
    (∀ b ct, apiPhoto st (some userId) requestId = ⟨200, .binary b ct⟩
        → ∃ p ∈ (st.photos.get userId).getD [],
            p.buffer = b ∧ p.mimeType = ct ∧ p.requestId = some requestId)
    ∧ (((st.photos.get userId).getD []).find? (fun p => p.requestId == some requestId) = none
        → apiPhoto st (some userId) requestId = ⟨404, .jsonError "Photo not found"⟩)
    ∧ (∀ p, ((st.photos.get userId).getD []).find?
          (fun q => q.requestId == some requestId) = some p
        → apiPhoto st (some userId) requestId = ⟨200, .binary p.buffer p.mimeType⟩) := by
  refine ⟨?_, ?_, ?_⟩
  · intro b ct heq
    rw [apiPhoto_auth st userId requestId h] at heq
    cases hfind : ((st.photos.get userId).getD []).find?
        (fun p => p.requestId == some requestId) with
    | none =>
      rw [hfind] at heq
      simp at heq
    | some p =>
      rw [hfind] at heq
      have hmem := List.mem_of_find?_eq_some hfind
      have hreq : p.requestId = some requestId := by
        simpa using List.find?_some hfind
      simp only [Response.mk.injEq, ResponseBody.binary.injEq] at heq
      exact ⟨p, hmem, heq.2.1, heq.2.2, hreq⟩
  · intro hfind
    rw [apiPhoto_auth st userId requestId h, hfind]
  · intro p hfind
    rw [apiPhoto_auth st userId requestId h, hfind]

/-- Witness for C9: on a concrete state holding one photo for "user1", the
matching request serves that photo's bytes and MIME type. -/
theorem api_photo_per_user_witness :
    apiPhoto sampleState (some "user1") "req-1"
      = ⟨200, .binary sampleStored.buffer sampleStored.mimeType⟩ :=
  (api_photo_per_user sampleState "user1" "req-1" (by decide)).2.2 sampleStored (by rfl)
